import Mathlib

/-!
Verification of the eventually-consistent log retriever and result assembler
from the audit-trail notebook (cells 30 and 33).

The notebook's own logic is three pieces:

* `insights_log_requests`, decorated with
  `backoff.on_predicate(backoff.expo, lambda x: len(x.values) < 2, max_tries=5)`:
  it rebuilds a filter expression from the current clock and the fixed
  operation name / correlation id, issues a log search, and is re-invoked
  (after an exponential-backoff wait) while the returned entry count is
  below 2, up to 5 total calls; exhaustion returns the last result.

* `request_response_reqs`, decorated with
  `backoff.on_exception(backoff.expo, finbourne_insights.ApiException, max_tries=5)`:
  it fetches the request body then the response body for one log entry id;
  an `ApiException` from either fetch causes the whole pair fetch to be
  re-invoked after a backoff wait, up to 5 total calls; exhaustion re-raises
  the last exception.  Exceptions of other classes propagate immediately.

* `request_response_bodies`, a loop that, for each returned log entry,
  fetches its detail pair and builds a result record; when the entry's
  `http_status_code == 400` it reads `response_body["name"]` and
  `response_body["errorDetails"]`, otherwise it leaves both error fields None.

The embedding below models remote endpoints as oracles indexed by the attempt
number, the clock as an integer number of seconds that advances by the base
backoff delay between attempts (`backoff.expo` yields 1, 2, 4, ...; jitter is
abstracted to the base value), and JSON documents as an inductive type
(`json.loads` of the wire body is abstracted: the detail oracles yield parsed
documents).  The retry wrappers return, besides the result, the trace of
filters issued and base delays waited, so call counts and query contents are
statable.
-/

namespace InsightsNotebook

/-- Parsed JSON documents, as produced by `json.loads`: the response and
request bodies are arbitrary structured JSON.  Object fields hold the
dictionary's key/value pairs. -/
inductive Json where
  | null : Json
  | bool : Bool → Json
  | num : Int → Json
  | str : String → Json
  | arr : List Json → Json
  | obj : List (String × Json) → Json

/-- Errors the Python row-assembly code can raise while reading fields out of
a parsed body: `KeyError` for a missing dictionary key, `TypeError` for
subscripting a non-dictionary with a string key. -/
inductive PyErr where
  | keyError : String → PyErr
  | typeError : PyErr
deriving DecidableEq

/-- Python dictionary subscript `body[k]` on a parsed JSON document:
returns the value, raises `KeyError` when the key is absent, and raises
`TypeError` when the document is not an object. -/
def pyLookup : Json → String → Except PyErr Json
  | Json.obj fields, k =>
      match fields.lookup k with
      | some v => Except.ok v
      | none => Except.error (PyErr.keyError k)
  | _, _ => Except.error PyErr.typeError

/-- One log entry returned by `list_request_logs`: the fields of `row` the
notebook reads (`row.id`, `row.timestamp`, `row.outcome`,
`row.http_status_code`). -/
structure LogEntry where
  id : String
  timestamp : String
  outcome : String
  http_status_code : Nat
deriving DecidableEq

/-- The response of `list_request_logs`: the notebook only uses its
`.values` collection of log entries. -/
structure LogsResponse where
  values : List LogEntry
deriving DecidableEq

/-- The filter expression built inside `insights_log_requests`:
`f"timestamp gt {timestamp_lower} and timestamp lt {timestamp_upper} and
operation eq '{operation}' and CorrelationId eq '{correlation_id}' "`.
Timestamps are modelled as integer seconds. -/
structure FilterExpr where
  timestamp_lower : Int
  timestamp_upper : Int
  operation : String
  correlationId : String
deriving DecidableEq

/-- The retry predicate threshold: `lambda x: len(x.values) < 2`. -/
def expectedMinimumCount : Nat := 2

/-- `max_tries=5` on both backoff decorators. -/
def maxTries : Nat := 5

/-- The base delay sequence of `backoff.expo`: 2 ^ n seconds before the
(n+2)-th call (1, 2, 4, 8, ...).  The decorators apply jitter on top of this
base; the model uses the base value. -/
def expo (n : Nat) : Nat := 2 ^ n

/-- Building the filter from the clock:
`timestamp_lower = datetime.now() - timedelta(minutes=timestamp_diff_lower)`
and likewise for the upper bound, both evaluated at call time inside the
retried function body. -/
def mkFilter (now timestamp_diff_lower timestamp_diff_upper : Int)
    (operationName correlationId : String) : FilterExpr :=
  { timestamp_lower := now - 60 * timestamp_diff_lower
    timestamp_upper := now - 60 * timestamp_diff_upper
    operation := operationName
    correlationId := correlationId }

/-- A network or service-level failure of the underlying
`list_request_logs` call (an exception class the predicate-based decorator
does not intercept). -/
structure TransportError where
  msg : String
deriving DecidableEq

/-- The observable outcome of one `insights_log_requests` invocation: the
value returned (or the exception propagated), the filters of the underlying
search calls issued, in order, and the base backoff delays waited between
consecutive calls. -/
structure FetchOutcome where
  result : Except TransportError LogsResponse
  filters : List FilterExpr
  delays : List Nat

/-- The retry loop of `@backoff.on_predicate(backoff.expo, lambda x:
len(x.values) < 2, max_tries=5)` around the body of
`insights_log_requests`: each call rebuilds the filter from the current
clock; a result with at least `expectedMinimumCount` entries returns
immediately; a short result either returns (when the try budget is spent) or
sleeps the base delay `expo attempt` and retries; an exception from the
underlying call propagates at once.  `retriesLeft` counts the retries still
allowed after the current call. -/
def fetchLogsAux (remote : Nat → FilterExpr → Except TransportError LogsResponse)
    (operationName correlationId : String)
    (timestamp_diff_lower timestamp_diff_upper : Int)
    (attempt : Nat) (now : Int) (retriesLeft : Nat)
    (accF : List FilterExpr) (accD : List Nat) : FetchOutcome :=
  match remote attempt
      (mkFilter now timestamp_diff_lower timestamp_diff_upper operationName correlationId) with
  | Except.error e =>
      ⟨Except.error e,
        accF ++ [mkFilter now timestamp_diff_lower timestamp_diff_upper operationName correlationId],
        accD⟩
  | Except.ok r =>
      if expectedMinimumCount ≤ r.values.length then
        ⟨Except.ok r,
          accF ++ [mkFilter now timestamp_diff_lower timestamp_diff_upper operationName correlationId],
          accD⟩
      else
        match retriesLeft with
        | 0 =>
            ⟨Except.ok r,
              accF ++ [mkFilter now timestamp_diff_lower timestamp_diff_upper operationName correlationId],
              accD⟩
        | retriesLeft' + 1 =>
            fetchLogsAux remote operationName correlationId
              timestamp_diff_lower timestamp_diff_upper
              (attempt + 1) (now + (expo attempt : Int)) retriesLeft'
              (accF ++ [mkFilter now timestamp_diff_lower timestamp_diff_upper operationName correlationId])
              (accD ++ [expo attempt])

/-- `insights_log_requests(operation, timestamp_diff_lower,
timestamp_diff_upper)` as decorated: up to `maxTries` total calls starting at
clock `t0`. -/
def insights_log_requests (remote : Nat → FilterExpr → Except TransportError LogsResponse)
    (operationName correlationId : String)
    (timestamp_diff_lower timestamp_diff_upper : Int) (t0 : Int) : FetchOutcome :=
  fetchLogsAux remote operationName correlationId
    timestamp_diff_lower timestamp_diff_upper 0 t0 (maxTries - 1) [] []

/-- Exceptions the detail-fetch calls (`get_request` / `get_response`) can
raise: `apiException` models `finbourne_insights.ApiException` with its HTTP
status (404 when the body is not yet indexed) — the class the decorator
retries on; `transportFailure` models any other exception class, which the
decorator does not intercept. -/
inductive DetailErr where
  | apiException : Nat → String → DetailErr
  | transportFailure : String → DetailErr
deriving DecidableEq

/-- Whether an exception is a `finbourne_insights.ApiException`, the class
named in `backoff.on_exception`. -/
def isApiException : DetailErr → Bool
  | DetailErr.apiException _ _ => true
  | _ => false

/-- The undecorated body of `request_response_reqs(id)`: fetch the request
body, then the response body, for the given log entry id; a failure of either
fetch aborts the attempt.  Oracles are indexed by the attempt number and
yield parsed documents. -/
def attemptPair (getReq getResp : Nat → String → Except DetailErr Json)
    (id : String) (attempt : Nat) : Except DetailErr (Json × Json) :=
  match getReq attempt id with
  | Except.error e => Except.error e
  | Except.ok rq =>
      match getResp attempt id with
      | Except.error e => Except.error e
      | Except.ok rs => Except.ok (rq, rs)

/-- The observable outcome of one `request_response_reqs` invocation: the
pair returned (or the exception propagated), the number of calls of the
function body, and the base backoff delays waited between consecutive
calls. -/
structure DetailOutcome where
  result : Except DetailErr (Json × Json)
  calls : Nat
  delays : List Nat

/-- The retry loop of `@backoff.on_exception(backoff.expo,
finbourne_insights.ApiException, max_tries=5)` around
`request_response_reqs`: a successful pair returns immediately; an
`ApiException` either re-raises (when the try budget is spent) or sleeps the
base delay `expo attempt` and re-invokes the whole pair fetch; any other
exception propagates at once. -/
def request_response_reqs_aux (getReq getResp : Nat → String → Except DetailErr Json)
    (id : String) (attempt : Nat) (retriesLeft : Nat) (accD : List Nat) : DetailOutcome :=
  match attemptPair getReq getResp id attempt with
  | Except.ok p => ⟨Except.ok p, attempt + 1, accD⟩
  | Except.error e =>
      if isApiException e then
        match retriesLeft with
        | 0 => ⟨Except.error e, attempt + 1, accD⟩
        | retriesLeft' + 1 =>
            request_response_reqs_aux getReq getResp id (attempt + 1) retriesLeft'
              (accD ++ [expo attempt])
      else ⟨Except.error e, attempt + 1, accD⟩

/-- `request_response_reqs(id)` as decorated: up to `maxTries` total calls of
the pair fetch. -/
def request_response_reqs (getReq getResp : Nat → String → Except DetailErr Json)
    (id : String) : DetailOutcome :=
  request_response_reqs_aux getReq getResp id 0 (maxTries - 1) []

/-- One dictionary appended to `rr_bodies` inside
`request_response_bodies`: the entry's fields joined with the parsed bodies
and the derived error fields. -/
structure ResultRecord where
  id : String
  timestamp : String
  outcome : String
  error : Option Json
  error_details : Option Json
  request_body : Json
  response_body : Json

/-- The per-row classification inside the `request_response_bodies` loop
(the spec's `assemble` operation): `error` and `error_details` start as
`None`; when `row.http_status_code == 400` they are assigned
`response_body["name"]` and `response_body["errorDetails"]`, either lookup
raising if the body lacks the key or is not an object. -/
def assemble (row : LogEntry) (request_body response_body : Json) :
    Except PyErr ResultRecord :=
  if row.http_status_code = 400 then
    match pyLookup response_body "name" with
    | Except.error e => Except.error e
    | Except.ok n =>
        match pyLookup response_body "errorDetails" with
        | Except.error e => Except.error e
        | Except.ok d =>
            Except.ok
              { id := row.id, timestamp := row.timestamp, outcome := row.outcome
                error := some n, error_details := some d
                request_body := request_body, response_body := response_body }
  else
    Except.ok
      { id := row.id, timestamp := row.timestamp, outcome := row.outcome
        error := none, error_details := none
        request_body := request_body, response_body := response_body }

/-- An exception escaping the `request_response_bodies` loop: either a
detail-fetch exception propagated through `request_response_reqs`, or a
lookup error from the error-field classification. -/
inductive PipelineErr where
  | detail : DetailErr → PipelineErr
  | assembleFail : PyErr → PipelineErr

/-- The `request_response_bodies(req_logs)` loop over `req_logs.values`: for
each row, fetch the detail pair with the retrying `request_response_reqs`,
then build the row's record; any exception aborts the whole loop. -/
def request_response_bodies (getReq getResp : Nat → String → Except DetailErr Json) :
    List LogEntry → Except PipelineErr (List ResultRecord)
  | [] => Except.ok []
  | row :: rest =>
      match (request_response_reqs getReq getResp row.id).result with
      | Except.error e => Except.error (PipelineErr.detail e)
      | Except.ok req_resp =>
          match assemble row req_resp.1 req_resp.2 with
          | Except.error e => Except.error (PipelineErr.assembleFail e)
          | Except.ok rec =>
              match request_response_bodies getReq getResp rest with
              | Except.error e => Except.error e
              | Except.ok recs => Except.ok (rec :: recs)

/-! Concrete inputs used to exercise the definitions above: small log
entries, response bodies and oracles mirroring the notebook's scenario (one
successful valuation call, one failing with `InvalidParameterValue`). -/

/-- A log entry of the successful valuation call. -/
def entryA : LogEntry := ⟨"req-1", "2023-01-26T12:00:00", "Success", 200⟩

/-- A log entry of the failing valuation call. -/
def entryB : LogEntry := ⟨"req-2", "2023-01-26T12:00:01", "Failure", 400⟩

/-- A remote log store whose index never catches up: every search returns no
entries. -/
def emptyRemote : Nat → FilterExpr → Except TransportError LogsResponse :=
  fun _ _ => Except.ok ⟨[]⟩

/-- A remote log store that returns no entries on the first search and both
entries on every later search. -/
def remoteShortThenFull : Nat → FilterExpr → Except TransportError LogsResponse
  | 0, _ => Except.ok ⟨[]⟩
  | _ + 1, _ => Except.ok ⟨[entryA, entryB]⟩

/-- A remote log store whose first search returns no entries and whose second
search raises a transport-level exception. -/
def remoteThenError : Nat → FilterExpr → Except TransportError LogsResponse
  | 0, _ => Except.ok ⟨[]⟩
  | _ + 1, _ => Except.error ⟨"connection reset"⟩

/-- Three entries returned at once (more than `expectedMinimumCount`). -/
def entriesThree : List LogEntry :=
  [⟨"req-a", "t1", "Success", 200⟩, ⟨"req-b", "t2", "Success", 200⟩,
    ⟨"req-c", "t3", "Success", 200⟩]

/-- A remote log store that returns three entries immediately. -/
def remoteThree : Nat → FilterExpr → Except TransportError LogsResponse :=
  fun _ _ => Except.ok ⟨entriesThree⟩

/-- A detail endpoint that always reports the body as not yet indexed. -/
def getReqNotFound : Nat → String → Except DetailErr Json :=
  fun _ _ => Except.error (DetailErr.apiException 404 "not found")

/-- A detail endpoint that always succeeds with a null document. -/
def detailOk : Nat → String → Except DetailErr Json :=
  fun _ _ => Except.ok Json.null

/-- A request-body endpoint failing on the first call and succeeding after. -/
def getReqFlaky : Nat → String → Except DetailErr Json
  | 0, _ => Except.error (DetailErr.apiException 404 "not found")
  | _ + 1, _ => Except.ok (Json.obj [("instruments", Json.arr [])])

/-- A response-body endpoint failing on the first two calls and succeeding
after. -/
def getRespFlaky : Nat → String → Except DetailErr Json
  | 0, _ => Except.error (DetailErr.apiException 404 "not found")
  | 1, _ => Except.error (DetailErr.apiException 404 "not found")
  | _ + 2, _ => Except.ok (Json.obj [("name", Json.str "InvalidParameterValue")])

/-- The failing entry's log record as read by the assembler. -/
def row400 : LogEntry := ⟨"req-2", "t", "Failure", 400⟩

/-- An error response body with a name and an empty detail list. -/
def rb400 : Json :=
  Json.obj [("name", Json.str "InvalidParameterValue"), ("errorDetails", Json.arr [])]

/-- The record the assembler builds out of `row400` and `rb400`. -/
def rec400 : ResultRecord :=
  ⟨"req-2", "t", "Failure", some (Json.str "InvalidParameterValue"),
    some (Json.arr []), Json.null, rb400⟩

/-- The one structured error-detail record of the notebook's failing call. -/
def detailIPV : Json :=
  Json.obj [("id", Json.str "instruments"), ("detail", Json.str "must not be empty")]

/-- The notebook's `InvalidParameterValue` response body with one
error-detail record. -/
def respBodyIPV : Json :=
  Json.obj [("name", Json.str "InvalidParameterValue"),
    ("errorDetails", Json.arr [detailIPV])]


/-! Helper lemmas: one-step unfolding equations for the two retry loops and
their behaviour over a whole run, by induction on the retry budget. -/

theorem fetchLogsAux_ok_ge
    (remote : Nat → FilterExpr → Except TransportError LogsResponse)
    (operationName correlationId : String) (tdl tdu : Int)
    (attempt : Nat) (now : Int) (retriesLeft : Nat)
    (accF : List FilterExpr) (accD : List Nat) (r : LogsResponse)
    (h : remote attempt (mkFilter now tdl tdu operationName correlationId) = Except.ok r)
    (hge : expectedMinimumCount ≤ r.values.length) :
    fetchLogsAux remote operationName correlationId tdl tdu attempt now retriesLeft accF accD =
      ⟨Except.ok r, accF ++ [mkFilter now tdl tdu operationName correlationId], accD⟩ := by
  unfold fetchLogsAux
  rw [h]
  simp [hge]

theorem fetchLogsAux_err
    (remote : Nat → FilterExpr → Except TransportError LogsResponse)
    (operationName correlationId : String) (tdl tdu : Int)
    (attempt : Nat) (now : Int) (retriesLeft : Nat)
    (accF : List FilterExpr) (accD : List Nat) (e : TransportError)
    (h : remote attempt (mkFilter now tdl tdu operationName correlationId) = Except.error e) :
    fetchLogsAux remote operationName correlationId tdl tdu attempt now retriesLeft accF accD =
      ⟨Except.error e, accF ++ [mkFilter now tdl tdu operationName correlationId], accD⟩ := by
  unfold fetchLogsAux
  rw [h]

theorem fetchLogsAux_ok_lt_zero
    (remote : Nat → FilterExpr → Except TransportError LogsResponse)
    (operationName correlationId : String) (tdl tdu : Int)
    (attempt : Nat) (now : Int)
    (accF : List FilterExpr) (accD : List Nat) (r : LogsResponse)
    (h : remote attempt (mkFilter now tdl tdu operationName correlationId) = Except.ok r)
    (hlt : r.values.length < expectedMinimumCount) :
    fetchLogsAux remote operationName correlationId tdl tdu attempt now 0 accF accD =
      ⟨Except.ok r, accF ++ [mkFilter now tdl tdu operationName correlationId], accD⟩ := by
  unfold fetchLogsAux
  rw [h]
  simp [Nat.not_le.mpr hlt]

theorem fetchLogsAux_ok_lt_succ
    (remote : Nat → FilterExpr → Except TransportError LogsResponse)
    (operationName correlationId : String) (tdl tdu : Int)
    (attempt : Nat) (now : Int) (retriesLeft : Nat)
    (accF : List FilterExpr) (accD : List Nat) (r : LogsResponse)
    (h : remote attempt (mkFilter now tdl tdu operationName correlationId) = Except.ok r)
    (hlt : r.values.length < expectedMinimumCount) :
    fetchLogsAux remote operationName correlationId tdl tdu attempt now (retriesLeft + 1) accF accD =
      fetchLogsAux remote operationName correlationId tdl tdu (attempt + 1)
        (now + (expo attempt : Int)) retriesLeft
        (accF ++ [mkFilter now tdl tdu operationName correlationId])
        (accD ++ [expo attempt]) := by
  conv_lhs => unfold fetchLogsAux
  rw [h]
  simp [Nat.not_le.mpr hlt]



theorem expo_range_shift (attempt k : Nat) :
    (List.range (k + 1)).map (fun i => expo (attempt + i)) =
      expo attempt :: (List.range k).map (fun i => expo (attempt + 1 + i)) := by
  rw [List.range_succ_eq_map, List.map_cons, List.map_map]
  have hfun : ((fun i => expo (attempt + i)) ∘ Nat.succ) = (fun i => expo (attempt + 1 + i)) := by
    funext i
    simp only [Function.comp_apply]
    congr 1
    omega
  rw [hfun]
  simp

theorem fetchLogsAux_succ_spec
    (remote : Nat → FilterExpr → Except TransportError LogsResponse)
    (operationName correlationId : String) (tdl tdu : Int) :
    ∀ (k attempt : Nat) (now : Int) (retriesLeft : Nat)
      (accF : List FilterExpr) (accD : List Nat),
      k ≤ retriesLeft →
      (∀ i, i < k → ∀ flt, ∃ r, remote (attempt + i) flt = Except.ok r ∧
        r.values.length < expectedMinimumCount) →
      (∀ flt, ∃ r, remote (attempt + k) flt = Except.ok r ∧
        expectedMinimumCount ≤ r.values.length) →
      ∃ r fs,
        fetchLogsAux remote operationName correlationId tdl tdu attempt now retriesLeft accF accD =
          ⟨Except.ok r, accF ++ fs,
            accD ++ (List.range k).map (fun i => expo (attempt + i))⟩ ∧
        fs.length = k + 1 ∧
        (∃ flt, remote (attempt + k) flt = Except.ok r) ∧
        expectedMinimumCount ≤ r.values.length := by
  intro k
  induction k with
  | zero =>
    intro attempt now retriesLeft accF accD hk hshort hfull
    obtain ⟨r, hr, hlen⟩ := hfull (mkFilter now tdl tdu operationName correlationId)
    rw [Nat.add_zero] at hr
    refine ⟨r, [mkFilter now tdl tdu operationName correlationId], ?_, rfl,
      ⟨mkFilter now tdl tdu operationName correlationId, by rw [Nat.add_zero]; exact hr⟩, hlen⟩
    rw [fetchLogsAux_ok_ge remote operationName correlationId tdl tdu attempt now
      retriesLeft accF accD r hr hlen]
    simp
  | succ k ih =>
    intro attempt now retriesLeft accF accD hk hshort hfull
    cases retriesLeft with
    | zero => omega
    | succ rl =>
      obtain ⟨r0, hr0, hlen0⟩ := hshort 0 (Nat.succ_pos k)
        (mkFilter now tdl tdu operationName correlationId)
      rw [Nat.add_zero] at hr0
      obtain ⟨r, fs, heq, hfslen, hwit, hge⟩ :=
        ih (attempt + 1) (now + (expo attempt : Int)) rl
          (accF ++ [mkFilter now tdl tdu operationName correlationId])
          (accD ++ [expo attempt])
          (Nat.le_of_succ_le_succ hk)
          (fun i hi flt => by
            have h := hshort (i + 1) (Nat.succ_lt_succ hi) flt
            rwa [show attempt + (i + 1) = attempt + 1 + i by omega] at h)
          (fun flt => by
            have h := hfull flt
            rwa [show attempt + (k + 1) = attempt + 1 + k by omega] at h)
      refine ⟨r, mkFilter now tdl tdu operationName correlationId :: fs, ?_, by simp [hfslen], ?_, hge⟩
      · rw [fetchLogsAux_ok_lt_succ remote operationName correlationId tdl tdu attempt now
          rl accF accD r0 hr0 hlen0, heq]
        congr 1
        · simp
        · rw [expo_range_shift, List.append_assoc, List.singleton_append]
      · obtain ⟨flt, hflt⟩ := hwit
        exact ⟨flt, by rwa [show attempt + 1 + k = attempt + (k + 1) by omega] at hflt⟩

theorem fetchLogsAux_exhaust_spec
    (remote : Nat → FilterExpr → Except TransportError LogsResponse)
    (operationName correlationId : String) (tdl tdu : Int) :
    ∀ (retriesLeft attempt : Nat) (now : Int)
      (accF : List FilterExpr) (accD : List Nat),
      (∀ i, i ≤ retriesLeft → ∀ flt, ∃ r, remote (attempt + i) flt = Except.ok r ∧
        r.values.length < expectedMinimumCount) →
      ∃ r fs,
        fetchLogsAux remote operationName correlationId tdl tdu attempt now retriesLeft accF accD =
          ⟨Except.ok r, accF ++ fs,
            accD ++ (List.range retriesLeft).map (fun i => expo (attempt + i))⟩ ∧
        fs.length = retriesLeft + 1 ∧
        (∃ flt, remote (attempt + retriesLeft) flt = Except.ok r) ∧
        r.values.length < expectedMinimumCount := by
  intro retriesLeft
  induction retriesLeft with
  | zero =>
    intro attempt now accF accD hshort
    obtain ⟨r, hr, hlen⟩ := hshort 0 (Nat.le_refl 0)
      (mkFilter now tdl tdu operationName correlationId)
    rw [Nat.add_zero] at hr
    refine ⟨r, [mkFilter now tdl tdu operationName correlationId], ?_, rfl,
      ⟨mkFilter now tdl tdu operationName correlationId, by rw [Nat.add_zero]; exact hr⟩, hlen⟩
    rw [fetchLogsAux_ok_lt_zero remote operationName correlationId tdl tdu attempt now
      accF accD r hr hlen]
    simp
  | succ rl ih =>
    intro attempt now accF accD hshort
    obtain ⟨r0, hr0, hlen0⟩ := hshort 0 (Nat.zero_le _)
      (mkFilter now tdl tdu operationName correlationId)
    rw [Nat.add_zero] at hr0
    obtain ⟨r, fs, heq, hfslen, hwit, hlt⟩ :=
      ih (attempt + 1) (now + (expo attempt : Int))
        (accF ++ [mkFilter now tdl tdu operationName correlationId])
        (accD ++ [expo attempt])
        (fun i hi flt => by
          have h := hshort (i + 1) (Nat.succ_le_succ hi) flt
          rwa [show attempt + (i + 1) = attempt + 1 + i by omega] at h)
    refine ⟨r, mkFilter now tdl tdu operationName correlationId :: fs, ?_, by simp [hfslen], ?_, hlt⟩
    · rw [fetchLogsAux_ok_lt_succ remote operationName correlationId tdl tdu attempt now
        rl accF accD r0 hr0 hlen0, heq]
      congr 1
      · simp
      · rw [expo_range_shift, List.append_assoc, List.singleton_append]
    · obtain ⟨flt, hflt⟩ := hwit
      exact ⟨flt, by rwa [show attempt + 1 + rl = attempt + (rl + 1) by omega] at hflt⟩

theorem fetchLogsAux_error_spec
    (remote : Nat → FilterExpr → Except TransportError LogsResponse)
    (operationName correlationId : String) (tdl tdu : Int) (e : TransportError) :
    ∀ (j attempt : Nat) (now : Int) (retriesLeft : Nat)
      (accF : List FilterExpr) (accD : List Nat),
      j ≤ retriesLeft →
      (∀ i, i < j → ∀ flt, ∃ r, remote (attempt + i) flt = Except.ok r ∧
        r.values.length < expectedMinimumCount) →
      (∀ flt, remote (attempt + j) flt = Except.error e) →
      ∃ fs,
        fetchLogsAux remote operationName correlationId tdl tdu attempt now retriesLeft accF accD =
          ⟨Except.error e, accF ++ fs,
            accD ++ (List.range j).map (fun i => expo (attempt + i))⟩ ∧
        fs.length = j + 1 := by
  intro j
  induction j with
  | zero =>
    intro attempt now retriesLeft accF accD hj hshort herr
    have hr := herr (mkFilter now tdl tdu operationName correlationId)
    rw [Nat.add_zero] at hr
    refine ⟨[mkFilter now tdl tdu operationName correlationId], ?_, rfl⟩
    rw [fetchLogsAux_err remote operationName correlationId tdl tdu attempt now
      retriesLeft accF accD e hr]
    simp
  | succ j ih =>
    intro attempt now retriesLeft accF accD hj hshort herr
    cases retriesLeft with
    | zero => omega
    | succ rl =>
      obtain ⟨r0, hr0, hlen0⟩ := hshort 0 (Nat.succ_pos j)
        (mkFilter now tdl tdu operationName correlationId)
      rw [Nat.add_zero] at hr0
      obtain ⟨fs, heq, hfslen⟩ :=
        ih (attempt + 1) (now + (expo attempt : Int)) rl
          (accF ++ [mkFilter now tdl tdu operationName correlationId])
          (accD ++ [expo attempt])
          (Nat.le_of_succ_le_succ hj)
          (fun i hi flt => by
            have h := hshort (i + 1) (Nat.succ_lt_succ hi) flt
            rwa [show attempt + (i + 1) = attempt + 1 + i by omega] at h)
          (fun flt => by
            have h := herr flt
            rwa [show attempt + (j + 1) = attempt + 1 + j by omega] at h)
      refine ⟨mkFilter now tdl tdu operationName correlationId :: fs, ?_, by simp [hfslen]⟩
      rw [fetchLogsAux_ok_lt_succ remote operationName correlationId tdl tdu attempt now
        rl accF accD r0 hr0 hlen0, heq]
      congr 1
      · simp
      · rw [expo_range_shift, List.append_assoc, List.singleton_append]

theorem fetchLogsAux_filters_mem
    (remote : Nat → FilterExpr → Except TransportError LogsResponse)
    (operationName correlationId : String) (tdl tdu : Int) :
    ∀ (retriesLeft attempt : Nat) (now : Int)
      (accF : List FilterExpr) (accD : List Nat) (flt : FilterExpr),
      flt ∈ (fetchLogsAux remote operationName correlationId tdl tdu
        attempt now retriesLeft accF accD).filters →
      flt ∈ accF ∨ (flt.operation = operationName ∧ flt.correlationId = correlationId) := by
  intro retriesLeft
  induction retriesLeft with
  | zero =>
    intro attempt now accF accD flt hmem
    unfold fetchLogsAux at hmem
    cases hrem : remote attempt (mkFilter now tdl tdu operationName correlationId) with
    | error e =>
      rw [hrem] at hmem
      simp only [List.mem_append, List.mem_singleton] at hmem
      rcases hmem with h | h
      · exact Or.inl h
      · exact Or.inr (by rw [h]; exact ⟨rfl, rfl⟩)
    | ok r =>
      rw [hrem] at hmem
      by_cases hge : expectedMinimumCount ≤ r.values.length <;>
        simp only [hge, if_true, if_false, List.mem_append, List.mem_singleton] at hmem <;>
        rcases hmem with h | h
      · exact Or.inl h
      · exact Or.inr (by rw [h]; exact ⟨rfl, rfl⟩)
      · exact Or.inl h
      · exact Or.inr (by rw [h]; exact ⟨rfl, rfl⟩)
  | succ rl ih =>
    intro attempt now accF accD flt hmem
    unfold fetchLogsAux at hmem
    cases hrem : remote attempt (mkFilter now tdl tdu operationName correlationId) with
    | error e =>
      rw [hrem] at hmem
      simp only [List.mem_append, List.mem_singleton] at hmem
      rcases hmem with h | h
      · exact Or.inl h
      · exact Or.inr (by rw [h]; exact ⟨rfl, rfl⟩)
    | ok r =>
      rw [hrem] at hmem
      by_cases hge : expectedMinimumCount ≤ r.values.length
      · simp only [hge, if_true, List.mem_append, List.mem_singleton] at hmem
        rcases hmem with h | h
        · exact Or.inl h
        · exact Or.inr (by rw [h]; exact ⟨rfl, rfl⟩)
      · simp only [hge, if_false] at hmem
        have h := ih (attempt + 1) (now + (expo attempt : Int))
          (accF ++ [mkFilter now tdl tdu operationName correlationId])
          (accD ++ [expo attempt]) flt hmem
        rcases h with h | h
        · simp only [List.mem_append, List.mem_singleton] at h
          rcases h with h | h
          · exact Or.inl h
          · exact Or.inr (by rw [h]; exact ⟨rfl, rfl⟩)
        · exact Or.inr h


theorem rrr_aux_ok
    (getReq getResp : Nat → String → Except DetailErr Json) (id : String)
    (attempt retriesLeft : Nat) (accD : List Nat) (p : Json × Json)
    (h : attemptPair getReq getResp id attempt = Except.ok p) :
    request_response_reqs_aux getReq getResp id attempt retriesLeft accD =
      ⟨Except.ok p, attempt + 1, accD⟩ := by
  unfold request_response_reqs_aux
  rw [h]

theorem rrr_aux_api_zero
    (getReq getResp : Nat → String → Except DetailErr Json) (id : String)
    (attempt : Nat) (accD : List Nat) (e : DetailErr)
    (h : attemptPair getReq getResp id attempt = Except.error e)
    (hapi : isApiException e = true) :
    request_response_reqs_aux getReq getResp id attempt 0 accD =
      ⟨Except.error e, attempt + 1, accD⟩ := by
  unfold request_response_reqs_aux
  rw [h]
  simp [hapi]

theorem rrr_aux_api_succ
    (getReq getResp : Nat → String → Except DetailErr Json) (id : String)
    (attempt retriesLeft : Nat) (accD : List Nat) (e : DetailErr)
    (h : attemptPair getReq getResp id attempt = Except.error e)
    (hapi : isApiException e = true) :
    request_response_reqs_aux getReq getResp id attempt (retriesLeft + 1) accD =
      request_response_reqs_aux getReq getResp id (attempt + 1) retriesLeft
        (accD ++ [expo attempt]) := by
  conv_lhs => unfold request_response_reqs_aux
  rw [h]
  simp [hapi]

theorem rrr_aux_other
    (getReq getResp : Nat → String → Except DetailErr Json) (id : String)
    (attempt retriesLeft : Nat) (accD : List Nat) (e : DetailErr)
    (h : attemptPair getReq getResp id attempt = Except.error e)
    (hapi : isApiException e = false) :
    request_response_reqs_aux getReq getResp id attempt retriesLeft accD =
      ⟨Except.error e, attempt + 1, accD⟩ := by
  unfold request_response_reqs_aux
  rw [h]
  simp [hapi]

theorem rrr_aux_succ_spec
    (getReq getResp : Nat → String → Except DetailErr Json) (id : String) :
    ∀ (n attempt retriesLeft : Nat) (accD : List Nat) (p : Json × Json),
      n ≤ retriesLeft →
      (∀ i, i < n → ∃ e, attemptPair getReq getResp id (attempt + i) = Except.error e ∧
        isApiException e = true) →
      attemptPair getReq getResp id (attempt + n) = Except.ok p →
      request_response_reqs_aux getReq getResp id attempt retriesLeft accD =
        ⟨Except.ok p, attempt + n + 1,
          accD ++ (List.range n).map (fun i => expo (attempt + i))⟩ := by
  intro n
  induction n with
  | zero =>
    intro attempt retriesLeft accD p hn hfail hok
    rw [Nat.add_zero] at hok
    rw [rrr_aux_ok getReq getResp id attempt retriesLeft accD p hok]
    simp
  | succ n ih =>
    intro attempt retriesLeft accD p hn hfail hok
    cases retriesLeft with
    | zero => omega
    | succ rl =>
      obtain ⟨e, he, hapi⟩ := hfail 0 (Nat.succ_pos n)
      rw [Nat.add_zero] at he
      rw [rrr_aux_api_succ getReq getResp id attempt rl accD e he hapi]
      have h := ih (attempt + 1) rl (accD ++ [expo attempt]) p
        (Nat.le_of_succ_le_succ hn)
        (fun i hi => by
          obtain ⟨e', he', hapi'⟩ := hfail (i + 1) (Nat.succ_lt_succ hi)
          exact ⟨e', by rwa [show attempt + (i + 1) = attempt + 1 + i by omega] at he', hapi'⟩)
        (by rwa [show attempt + (n + 1) = attempt + 1 + n by omega] at hok)
      rw [h]
      congr 1
      · omega
      · rw [expo_range_shift, List.append_assoc, List.singleton_append]

theorem rrr_aux_exhaust_spec
    (getReq getResp : Nat → String → Except DetailErr Json) (id : String)
    (es : Nat → DetailErr) :
    ∀ (retriesLeft attempt : Nat) (accD : List Nat),
      (∀ i, i ≤ retriesLeft →
        attemptPair getReq getResp id (attempt + i) = Except.error (es (attempt + i)) ∧
        isApiException (es (attempt + i)) = true) →
      request_response_reqs_aux getReq getResp id attempt retriesLeft accD =
        ⟨Except.error (es (attempt + retriesLeft)), attempt + retriesLeft + 1,
          accD ++ (List.range retriesLeft).map (fun i => expo (attempt + i))⟩ := by
  intro retriesLeft
  induction retriesLeft with
  | zero =>
    intro attempt accD hfail
    obtain ⟨he, hapi⟩ := hfail 0 (Nat.le_refl 0)
    rw [Nat.add_zero] at he hapi
    rw [rrr_aux_api_zero getReq getResp id attempt accD _ he hapi]
    simp
  | succ rl ih =>
    intro attempt accD hfail
    obtain ⟨he, hapi⟩ := hfail 0 (Nat.zero_le _)
    rw [Nat.add_zero] at he hapi
    rw [rrr_aux_api_succ getReq getResp id attempt rl accD _ he hapi]
    have h := ih (attempt + 1) (accD ++ [expo attempt])
      (fun i hi => by
        have hh := hfail (i + 1) (Nat.succ_le_succ hi)
        rwa [show attempt + (i + 1) = attempt + 1 + i by omega] at hh)
    rw [h]
    congr 1
    · rw [show attempt + 1 + rl = attempt + (rl + 1) by omega]
    · omega
    · rw [expo_range_shift, List.append_assoc, List.singleton_append]

theorem assemble_id (row : LogEntry) (rq rs : Json) (rec : ResultRecord)
    (h : assemble row rq rs = Except.ok rec) : rec.id = row.id := by
  unfold assemble at h
  split at h
  · cases hn : pyLookup rs "name" with
    | error e => rw [hn] at h; cases h
    | ok n =>
      rw [hn] at h
      cases hd : pyLookup rs "errorDetails" with
      | error e => rw [hd] at h; cases h
      | ok d =>
        rw [hd] at h
        cases h
        rfl
  · cases h
    rfl

theorem request_response_bodies_ids
    (getReq getResp : Nat → String → Except DetailErr Json) :
    ∀ (rows : List LogEntry) (recs : List ResultRecord),
      request_response_bodies getReq getResp rows = Except.ok recs →
      recs.map ResultRecord.id = rows.map LogEntry.id := by
  intro rows
  induction rows with
  | nil =>
    intro recs h
    unfold request_response_bodies at h
    cases h
    rfl
  | cons row rest ih =>
    intro recs h
    unfold request_response_bodies at h
    cases hres : (request_response_reqs getReq getResp row.id).result with
    | error e => rw [hres] at h; cases h
    | ok p =>
      simp only [hres] at h
      cases hasm : assemble row p.1 p.2 with
      | error e => simp only [hasm] at h; cases h
      | ok rec =>
        simp only [hasm] at h
        cases hrest : request_response_bodies getReq getResp rest with
        | error e => simp only [hrest] at h; cases h
        | ok recs' =>
          simp only [hrest] at h
          cases h
          simp [assemble_id row p.1 p.2 rec hasm, ih recs' hrest]



/-! The claims. -/

/-- C1: if each of the first k underlying log-search calls (k+1 ≤ maxTries =
5) returns fewer than expectedMinimumCount (2) entries and the (k+1)-th call
returns at least expectedMinimumCount, then `insights_log_requests` returns
that (k+1)-th result, issues exactly k+1 underlying search calls, and waits
between consecutive attempts with base backoff delays `expo 0, expo 1, ...`
(1, 2, 4, ..., the base doubling each attempt); with k = 0 a sufficiently
long first result is returned immediately with no further calls. -/
theorem C1_fetchLogs_retries_until_enough
    (remote : Nat → FilterExpr → Except TransportError LogsResponse)
    (operationName correlationId : String) (tdl tdu t0 : Int) (k : Nat)
    (hk : k + 1 ≤ maxTries)
    (hshort : ∀ i, i < k → ∀ flt, ∃ r, remote i flt = Except.ok r ∧
      r.values.length < expectedMinimumCount)
    (hfull : ∀ flt, ∃ r, remote k flt = Except.ok r ∧
      expectedMinimumCount ≤ r.values.length) :
    ∃ r fs,
      insights_log_requests remote operationName correlationId tdl tdu t0 =
        ⟨Except.ok r, fs, (List.range k).map expo⟩ ∧
      fs.length = k + 1 ∧
      (∃ flt, remote k flt = Except.ok r) ∧
      expectedMinimumCount ≤ r.values.length := by
  have hmt : maxTries = 5 := rfl
  obtain ⟨r, fs, heq, hlen, hwit, hge⟩ :=
    fetchLogsAux_succ_spec remote operationName correlationId tdl tdu
      k 0 t0 (maxTries - 1) [] []
      (by omega)
      (fun i hi flt => by rw [Nat.zero_add]; exact hshort i hi flt)
      (fun flt => by rw [Nat.zero_add]; exact hfull flt)
  refine ⟨r, fs, ?_, hlen, ?_, hge⟩
  · unfold insights_log_requests
    rw [heq]
    simp
  · obtain ⟨flt, hflt⟩ := hwit
    exact ⟨flt, by rwa [Nat.zero_add] at hflt⟩

/-- C1 witness: first search empty, second returns two entries (k = 1). -/
theorem C1_witness :
    ∃ r fs,
      insights_log_requests remoteShortThenFull
        "GetValuationOfWeightedInstruments" "cid-1" 5 0 0 =
        ⟨Except.ok r, fs, (List.range 1).map expo⟩ ∧
      fs.length = 1 + 1 ∧
      (∃ flt, remoteShortThenFull 1 flt = Except.ok r) ∧
      expectedMinimumCount ≤ r.values.length :=
  C1_fetchLogs_retries_until_enough remoteShortThenFull
    "GetValuationOfWeightedInstruments" "cid-1" 5 0 0 1
    (by decide)
    (fun i hi flt => by
      cases i with
      | zero => exact ⟨⟨[]⟩, rfl, by decide⟩
      | succ m => omega)
    (fun flt => ⟨⟨[entryA, entryB]⟩, rfl, by decide⟩)

/-- C2: if every one of maxTries (5) underlying search calls returns fewer
than expectedMinimumCount (2) entries, `insights_log_requests` returns the
last-fetched short result normally (no exception), and the number of
underlying search calls issued equals maxTries. -/
theorem C2_fetchLogs_budget_exhausted_returns_last
    (remote : Nat → FilterExpr → Except TransportError LogsResponse)
    (operationName correlationId : String) (tdl tdu t0 : Int)
    (hshort : ∀ i, i < maxTries → ∀ flt, ∃ r, remote i flt = Except.ok r ∧
      r.values.length < expectedMinimumCount) :
    ∃ r fs,
      insights_log_requests remote operationName correlationId tdl tdu t0 =
        ⟨Except.ok r, fs, (List.range (maxTries - 1)).map expo⟩ ∧
      fs.length = maxTries ∧
      (∃ flt, remote (maxTries - 1) flt = Except.ok r) ∧
      r.values.length < expectedMinimumCount := by
  have hmt : maxTries = 5 := rfl
  obtain ⟨r, fs, heq, hlen, hwit, hlt⟩ :=
    fetchLogsAux_exhaust_spec remote operationName correlationId tdl tdu
      (maxTries - 1) 0 t0 [] []
      (fun i hi flt => by
        rw [Nat.zero_add]
        exact hshort i (by omega) flt)
  refine ⟨r, fs, ?_, by omega, ?_, hlt⟩
  · unfold insights_log_requests
    rw [heq]
    simp
  · obtain ⟨flt, hflt⟩ := hwit
    exact ⟨flt, by rwa [Nat.zero_add] at hflt⟩

/-- C2 witness: a store whose index never catches up; five calls are issued
and the last empty result is returned. -/
theorem C2_witness :
    ∃ r fs,
      insights_log_requests emptyRemote
        "GetValuationOfWeightedInstruments" "cid-1" 5 0 0 =
        ⟨Except.ok r, fs, (List.range (maxTries - 1)).map expo⟩ ∧
      fs.length = maxTries ∧
      (∃ flt, emptyRemote (maxTries - 1) flt = Except.ok r) ∧
      r.values.length < expectedMinimumCount :=
  C2_fetchLogs_budget_exhausted_returns_last emptyRemote
    "GetValuationOfWeightedInstruments" "cid-1" 5 0 0
    (fun i _ flt => ⟨⟨[]⟩, rfl, by decide⟩)

/-- C5: if the (j+1)-th underlying search call fails with a transport-level
exception (after j short results), the exception propagates unchanged as the
outcome of `insights_log_requests`, with no further underlying calls: only
the entry-count predicate drives the retry loop. -/
theorem C5_transport_error_propagates
    (remote : Nat → FilterExpr → Except TransportError LogsResponse)
    (operationName correlationId : String) (tdl tdu t0 : Int)
    (j : Nat) (e : TransportError)
    (hj : j < maxTries)
    (hshort : ∀ i, i < j → ∀ flt, ∃ r, remote i flt = Except.ok r ∧
      r.values.length < expectedMinimumCount)
    (herr : ∀ flt, remote j flt = Except.error e) :
    ∃ fs,
      insights_log_requests remote operationName correlationId tdl tdu t0 =
        ⟨Except.error e, fs, (List.range j).map expo⟩ ∧
      fs.length = j + 1 := by
  have hmt : maxTries = 5 := rfl
  obtain ⟨fs, heq, hlen⟩ :=
    fetchLogsAux_error_spec remote operationName correlationId tdl tdu e
      j 0 t0 (maxTries - 1) [] []
      (by omega)
      (fun i hi flt => by rw [Nat.zero_add]; exact hshort i hi flt)
      (fun flt => by rw [Nat.zero_add]; exact herr flt)
  refine ⟨fs, ?_, hlen⟩
  unfold insights_log_requests
  rw [heq]
  simp

/-- C5 witness: the first search is empty, the second raises a transport
error; the error surfaces after exactly two calls. -/
theorem C5_witness :
    ∃ fs,
      insights_log_requests remoteThenError
        "GetValuationOfWeightedInstruments" "cid-1" 5 0 0 =
        ⟨Except.error ⟨"connection reset"⟩, fs, (List.range 1).map expo⟩ ∧
      fs.length = 1 + 1 :=
  C5_transport_error_propagates remoteThenError
    "GetValuationOfWeightedInstruments" "cid-1" 5 0 0 1 ⟨"connection reset"⟩
    (by decide)
    (fun i hi flt => by
      cases i with
      | zero => exact ⟨⟨[]⟩, rfl, by decide⟩
      | succ m => omega)
    (fun flt => rfl)


/-- C3 counterexample: against a detail endpoint that always reports "not
found" (a 404 `ApiException`), `request_response_reqs` fails with that very
`ApiException` after exactly maxTries calls — not with any dedicated
indexing-timeout error distinguishable from the not-found error; no
`DetailNotIndexed` / `IndexingTimeout` outcome exists in the code. -/
theorem C3_counterexample :
    request_response_reqs getReqNotFound detailOk "req-1" =
      ⟨Except.error (DetailErr.apiException 404 "not found"), maxTries,
        [1, 2, 4, 8]⟩ := rfl

/-- C3 amended: if every one of the maxTries (5) attempts of
`request_response_reqs` fails with an `ApiException` (such as the remote
still reporting "not found"), the decorator re-raises the last such
`ApiException` unchanged after exactly maxTries underlying attempts; the
caller sees the same not-found error, not a dedicated indexing-timeout
error. -/
theorem C3_fetchDetail_exhaustion_reraises_ApiException
    (getReq getResp : Nat → String → Except DetailErr Json) (id : String)
    (es : Nat → DetailErr)
    (hfail : ∀ i, i < maxTries →
      attemptPair getReq getResp id i = Except.error (es i) ∧
      isApiException (es i) = true) :
    request_response_reqs getReq getResp id =
      ⟨Except.error (es (maxTries - 1)), maxTries,
        (List.range (maxTries - 1)).map expo⟩ := by
  have hmt : maxTries = 5 := rfl
  have h := rrr_aux_exhaust_spec getReq getResp id es (maxTries - 1) 0 []
    (fun i hi => by
      have hh := hfail i (by omega)
      rw [Nat.zero_add]
      exact hh)
  unfold request_response_reqs
  rw [h]
  simp [hmt]

/-- C3 witness: the always-not-found endpoint instantiates the amended
claim. -/
theorem C3_witness :
    request_response_reqs getReqNotFound detailOk "req-1" =
      ⟨Except.error (DetailErr.apiException 404 "not found"), maxTries,
        (List.range (maxTries - 1)).map expo⟩ :=
  C3_fetchDetail_exhaustion_reraises_ApiException getReqNotFound detailOk
    "req-1" (fun _ => DetailErr.apiException 404 "not found")
    (fun _ _ => ⟨rfl, rfl⟩)

/-- C6: `request_response_reqs` fetches the request and the response body as
a pair; if the first n attempts (n + 1 ≤ maxTries = 5) of the pair fetch fail
with an `ApiException` (the "not found yet" indexing-lag class), the entire
pair fetch is retried with exponential backoff, and on the first attempt
where both fetches succeed it returns the (request body, response body) pair
and stops immediately, having made exactly n + 1 attempts. -/
theorem C6_fetchDetail_retries_whole_pair
    (getReq getResp : Nat → String → Except DetailErr Json) (id : String)
    (n : Nat) (rq rs : Json)
    (hn : n + 1 ≤ maxTries)
    (hfail : ∀ i, i < n → ∃ e, attemptPair getReq getResp id i = Except.error e ∧
      isApiException e = true)
    (hreq : getReq n id = Except.ok rq)
    (hresp : getResp n id = Except.ok rs) :
    request_response_reqs getReq getResp id =
      ⟨Except.ok (rq, rs), n + 1, (List.range n).map expo⟩ := by
  have hmt : maxTries = 5 := rfl
  have hok : attemptPair getReq getResp id n = Except.ok (rq, rs) := by
    unfold attemptPair
    rw [hreq, hresp]
  have h := rrr_aux_succ_spec getReq getResp id n 0 (maxTries - 1) [] (rq, rs)
    (by omega)
    (fun i hi => by
      obtain ⟨e, he, hapi⟩ := hfail i hi
      exact ⟨e, by rwa [Nat.zero_add], hapi⟩)
    (by rwa [Nat.zero_add])
  unfold request_response_reqs
  rw [h]
  congr 1 <;> simp

/-- C6 witness: the request fetch fails on attempt 0, the response fetch
fails on attempt 1, both succeed on attempt 2 (n = 2); the pair returns after
exactly three attempts with backoff base delays 1 and 2. -/
theorem C6_witness :
    request_response_reqs getReqFlaky getRespFlaky "req-2" =
      ⟨Except.ok (Json.obj [("instruments", Json.arr [])],
        Json.obj [("name", Json.str "InvalidParameterValue")]),
        2 + 1, (List.range 2).map expo⟩ :=
  C6_fetchDetail_retries_whole_pair getReqFlaky getRespFlaky "req-2" 2
    (Json.obj [("instruments", Json.arr [])])
    (Json.obj [("name", Json.str "InvalidParameterValue")])
    (by decide)
    (fun i hi => by
      cases i with
      | zero => exact ⟨DetailErr.apiException 404 "not found", rfl, rfl⟩
      | succ m =>
        cases m with
        | zero => exact ⟨DetailErr.apiException 404 "not found", rfl, rfl⟩
        | succ m2 => omega)
    rfl
    rfl


/-- C4 counterexample: a log entry with the client-error status 404 and a
response body carrying both structured error fields assembles into a record
whose error fields are absent — the code populates them only for status 400,
not for every 4xx status. -/
theorem C4_counterexample :
    assemble ⟨"req-2", "t", "Failure", 404⟩ Json.null rb400 =
      Except.ok ⟨"req-2", "t", "Failure", none, none, Json.null, rb400⟩ ∧
    400 ≤ 404 ∧ 404 < 500 :=
  ⟨rfl, by omega, by omega⟩

/-- C4 amended: for every assembled record, the error and error-details
fields are populated (from `responseBody["name"]` and
`responseBody["errorDetails"]`) if and only if the entry's HTTP status code
equals 400 exactly; for every other status — including other 4xx client
errors — both fields are absent regardless of the response body content. -/
theorem C4_error_fields_iff_status_400
    (row : LogEntry) (rq rb : Json) (rec : ResultRecord)
    (h : assemble row rq rb = Except.ok rec) :
    (row.http_status_code = 400 ∧ ∃ n d,
      pyLookup rb "name" = Except.ok n ∧
      pyLookup rb "errorDetails" = Except.ok d ∧
      rec.error = some n ∧ rec.error_details = some d) ∨
    (row.http_status_code ≠ 400 ∧ rec.error = none ∧ rec.error_details = none) := by
  by_cases h400 : row.http_status_code = 400
  · left
    unfold assemble at h
    rw [if_pos h400] at h
    cases hn : pyLookup rb "name" with
    | error e => rw [hn] at h; cases h
    | ok n =>
      rw [hn] at h
      cases hd : pyLookup rb "errorDetails" with
      | error e => rw [hd] at h; cases h
      | ok d =>
        rw [hd] at h
        cases h
        exact ⟨h400, n, d, rfl, rfl, rfl, rfl⟩
  · right
    unfold assemble at h
    rw [if_neg h400] at h
    cases h
    exact ⟨h400, rfl, rfl⟩

/-- C4 witness: the status-400 entry with the `InvalidParameterValue` body
lands in the populated branch. -/
theorem C4_witness :
    (row400.http_status_code = 400 ∧ ∃ n d,
      pyLookup rb400 "name" = Except.ok n ∧
      pyLookup rb400 "errorDetails" = Except.ok d ∧
      rec400.error = some n ∧ rec400.error_details = some d) ∨
    (row400.http_status_code ≠ 400 ∧ rec400.error = none ∧
      rec400.error_details = none) :=
  C4_error_fields_iff_status_400 row400 Json.null rb400 rec400 rfl

/-- C7: for every log entry with HTTP status 400 whose response body yields a
name field and an errorDetails field, the assembled record's error equals
`responseBody["name"]` and its error details equal
`responseBody["errorDetails"]`, the same JSON value (hence the same ordered
sequence). -/
theorem C7_assemble_400_extracts_error_fields
    (row : LogEntry) (rq rb n d : Json)
    (h400 : row.http_status_code = 400)
    (hn : pyLookup rb "name" = Except.ok n)
    (hd : pyLookup rb "errorDetails" = Except.ok d) :
    assemble row rq rb = Except.ok
      ⟨row.id, row.timestamp, row.outcome, some n, some d, rq, rb⟩ := by
  unfold assemble
  rw [if_pos h400, hn, hd]

/-- C7 witness: a 400 entry with body name "InvalidParameterValue" and one
error-detail record yields error = "InvalidParameterValue" and error details
being that one-element sequence. -/
theorem C7_witness :
    assemble row400 Json.null respBodyIPV =
      Except.ok ⟨"req-2", "t", "Failure", some (Json.str "InvalidParameterValue"),
        some (Json.arr [detailIPV]), Json.null, respBodyIPV⟩ ∧
    ([detailIPV] : List Json).length = 1 :=
  ⟨C7_assemble_400_extracts_error_fields row400 Json.null respBodyIPV
    (Json.str "InvalidParameterValue") (Json.arr [detailIPV]) rfl rfl rfl, rfl⟩

/-- C8 counterexample: when the entry's status is 400 and the response body
lacks the name field, the assemble step fails with the generic Python
`KeyError` for the missing key — there is no distinct `MalformedErrorBody`
error in the code's repertoire of outcomes. -/
theorem C8_counterexample :
    assemble ⟨"req-2", "t", "Failure", 400⟩ Json.null
      (Json.obj [("errorDetails", Json.arr [])]) =
      Except.error (PyErr.keyError "name") := rfl

/-- C8 amended: the assemble step fails exactly when the entry's HTTP status
is 400 and reading `responseBody["name"]` or `responseBody["errorDetails"]`
raises (missing key or non-object body); in that case it surfaces the generic
lookup error (`KeyError` / `TypeError`) rather than silently producing a
partially empty record, and for well-formed inputs it never fails. -/
theorem C8_assemble_fails_iff_400_and_missing_fields
    (row : LogEntry) (rq rb : Json) :
    (∃ e, assemble row rq rb = Except.error e) ↔
      (row.http_status_code = 400 ∧
        ((∃ e, pyLookup rb "name" = Except.error e) ∨
         (∃ e, pyLookup rb "errorDetails" = Except.error e))) := by
  by_cases h400 : row.http_status_code = 400
  · cases hn : pyLookup rb "name" with
    | error e =>
      constructor
      · intro _
        exact ⟨h400, Or.inl ⟨e, rfl⟩⟩
      · intro _
        refine ⟨e, ?_⟩
        unfold assemble
        rw [if_pos h400, hn]
    | ok n =>
      cases hd : pyLookup rb "errorDetails" with
      | error e =>
        constructor
        · intro _
          exact ⟨h400, Or.inr ⟨e, rfl⟩⟩
        · intro _
          refine ⟨e, ?_⟩
          unfold assemble
          rw [if_pos h400, hn, hd]
      | ok d =>
        constructor
        · rintro ⟨e, he⟩
          unfold assemble at he
          rw [if_pos h400, hn, hd] at he
          cases he
        · rintro ⟨-, hor⟩
          rcases hor with ⟨e, he⟩ | ⟨e, he⟩
          · cases he
          · cases he
  · constructor
    · rintro ⟨e, he⟩
      unfold assemble at he
      rw [if_neg h400] at he
      cases he
    · rintro ⟨h4, -⟩
      exact absurd h4 h400


/-- C9 counterexample: within a single `insights_log_requests` invocation
against a store that stays empty, the five underlying search calls do NOT all
use the same time-window lower bound — the filter is rebuilt from the current
clock inside the retried function body, so later attempts carry later
bounds. -/
theorem C9_counterexample :
    ¬ ((insights_log_requests emptyRemote "GetValuationOfWeightedInstruments"
      "cid-1" 5 0 0).filters.map
        FilterExpr.timestamp_lower).Pairwise (fun a b => a = b) := by
  decide

/-- C9 amended: within a single invocation of `insights_log_requests`, every
underlying search request uses the same operation name and the same
correlation identifier, but the time-window bounds are recomputed from the
current clock at each attempt rather than being part of an immutable query
value. -/
theorem C9_filters_share_operation_and_correlation
    (remote : Nat → FilterExpr → Except TransportError LogsResponse)
    (operationName correlationId : String) (tdl tdu t0 : Int)
    (flt : FilterExpr)
    (hmem : flt ∈ (insights_log_requests remote operationName correlationId
      tdl tdu t0).filters) :
    flt.operation = operationName ∧ flt.correlationId = correlationId := by
  have h := fetchLogsAux_filters_mem remote operationName correlationId tdl tdu
    (maxTries - 1) 0 t0 [] [] flt hmem
  rcases h with h | h
  · cases h
  · exact h

/-- C9 witness: the first filter issued against the never-indexing store
carries the invocation's operation name and correlation id. -/
theorem C9_witness :
    mkFilter 0 5 0 "GetValuationOfWeightedInstruments" "cid-1" ∈
      (insights_log_requests emptyRemote "GetValuationOfWeightedInstruments"
        "cid-1" 5 0 0).filters ∧
    ((mkFilter 0 5 0 "GetValuationOfWeightedInstruments" "cid-1").operation =
        "GetValuationOfWeightedInstruments" ∧
      (mkFilter 0 5 0 "GetValuationOfWeightedInstruments" "cid-1").correlationId =
        "cid-1") :=
  ⟨by decide,
    C9_filters_share_operation_and_correlation emptyRemote
      "GetValuationOfWeightedInstruments" "cid-1" 5 0 0
      (mkFilter 0 5 0 "GetValuationOfWeightedInstruments" "cid-1") (by decide)⟩

/-- C10: the expected-count condition is a lower bound: when the first
underlying search call returns strictly more than expectedMinimumCount (2)
entries, `insights_log_requests` stops after that single call and passes all
returned entries on unchanged (none trimmed or deduplicated), and
`request_response_bodies` produces exactly one result record per returned
entry, in the order the entries were returned. -/
theorem C10_more_than_expected_passthrough
    (remote : Nat → FilterExpr → Except TransportError LogsResponse)
    (getReq getResp : Nat → String → Except DetailErr Json)
    (operationName correlationId : String) (tdl tdu t0 : Int)
    (r : LogsResponse) (recs : List ResultRecord)
    (h1 : remote 0 (mkFilter t0 tdl tdu operationName correlationId) = Except.ok r)
    (h2 : expectedMinimumCount < r.values.length)
    (h3 : request_response_bodies getReq getResp r.values = Except.ok recs) :
    insights_log_requests remote operationName correlationId tdl tdu t0 =
      ⟨Except.ok r, [mkFilter t0 tdl tdu operationName correlationId], []⟩ ∧
    recs.map ResultRecord.id = r.values.map LogEntry.id := by
  constructor
  · unfold insights_log_requests
    rw [fetchLogsAux_ok_ge remote operationName correlationId tdl tdu
      0 t0 (maxTries - 1) [] [] r h1 (le_of_lt h2)]
    simp
  · exact request_response_bodies_ids getReq getResp r.values recs h3

/-- C10 witness: three entries (more than 2) returned on the first call, all
passed through and assembled into three records with matching ids in the same
order. -/
theorem C10_witness :
    insights_log_requests remoteThree "GetValuationOfWeightedInstruments"
      "cid-1" 5 0 0 =
      ⟨Except.ok ⟨entriesThree⟩,
        [mkFilter 0 5 0 "GetValuationOfWeightedInstruments" "cid-1"], []⟩ ∧
    ([⟨"req-a", "t1", "Success", none, none, Json.null, Json.null⟩,
      ⟨"req-b", "t2", "Success", none, none, Json.null, Json.null⟩,
      ⟨"req-c", "t3", "Success", none, none, Json.null, Json.null⟩] :
        List ResultRecord).map ResultRecord.id =
      (⟨entriesThree⟩ : LogsResponse).values.map LogEntry.id :=
  C10_more_than_expected_passthrough remoteThree detailOk detailOk
    "GetValuationOfWeightedInstruments" "cid-1" 5 0 0 ⟨entriesThree⟩
    [⟨"req-a", "t1", "Success", none, none, Json.null, Json.null⟩,
      ⟨"req-b", "t2", "Success", none, none, Json.null, Json.null⟩,
      ⟨"req-c", "t3", "Success", none, none, Json.null, Json.null⟩]
    rfl (by decide) rfl

end InsightsNotebook
